import Mathlib

/-!
Verification of the minimax-tests TTS command-line scripts.

The repository holds three near-duplicate Python scripts (1-tts.py, 2-tts.py,
3-tts.py) that parse CLI arguments, read an API credential from the
environment, issue one HTTP POST to a text-to-speech endpoint and write the
returned audio bytes to a file.  This file is a shallow embedding of those
scripts: pure Lean functions mirror the Python functions, the HTTP transport
is a function parameter, and the observable effects of a run (exit code,
stdout, stderr, files written, requests issued) are collected in a record.
-/

namespace TTS

/-- The audio formats accepted by the `--format` CLI option
(`choices=["wav", "mp3", "opus", "flac"]` in all three scripts). -/
inductive Format where
  | wav
  | mp3
  | opus
  | flac
deriving DecidableEq, Repr

/-- The string form of a format, as it appears on the command line and in the
request payload. -/
def Format.str : Format → String
  | .wav => "wav"
  | .mp3 => "mp3"
  | .opus => "opus"
  | .flac => "flac"

/-- Inverse of `Format.str`: recognise a `--format` value, `none` for any
string outside the argparse `choices` list. -/
def Format.ofString (s : String) : Option Format :=
  if s = "wav" then some .wav
  else if s = "mp3" then some .mp3
  else if s = "opus" then some .opus
  else if s = "flac" then some .flac
  else none

/-- Python `s.lower()`, character by character (ASCII case folding). -/
def pyLower (s : String) : String :=
  ⟨s.data.map Char.toLower⟩

/-- Python `s.endswith(suffix)`: exact codepoint suffix test. -/
def pyEndsWith (s suffix : String) : Bool :=
  suffix.data.isSuffixOf s.data

/-- Python `s.startswith(pre)`: exact codepoint prefix test (used for the
argparse option-versus-positional distinction). -/
def pyStartsWith (s pre : String) : Bool :=
  pre.data.isPrefixOf s.data

/-- The parsed CLI arguments: positional `text`, `-o from --output`
(default "speech"), `--format` (default wav).  Mirrors the argparse
Namespace produced by `parse_args` in each script. -/
structure Args where
  text : String
  output : String
  format : Format
deriving DecidableEq, Repr

/-- Embedding of the argparse configuration shared by the three scripts:
one required positional `text`, options `-o from --output` and `--format`
each taking one value, `--format` restricted to the four choices.  A token
beginning with a dash that is not one of the declared options, a second
positional, a missing option value, a value outside the choices, or a
missing positional are all parse errors (argparse exits with status 2). -/
def parseArgsAux : List String → Option String → String → Format → Except String Args
  | [], none, _, _ => .error "the following arguments are required: text"
  | [], some t, o, f => .ok ⟨t, o, f⟩
  | tok :: rest, t?, o, f =>
    if tok = "-o" ∨ tok = "--output" then
      match rest with
      | [] => .error "argument -o/--output: expected one argument"
      | v :: rest2 => parseArgsAux rest2 t? v f
    else if tok = "--format" then
      match rest with
      | [] => .error "argument --format: expected one argument"
      | v :: rest2 =>
        match Format.ofString v with
        | some fv => parseArgsAux rest2 t? o fv
        | none => .error ("argument --format: invalid choice: " ++ v)
    else if pyStartsWith tok "-" ∧ tok ≠ "-" then
      .error ("unrecognized arguments: " ++ tok)
    else
      match t? with
      | none => parseArgsAux rest (some tok) o f
      | some _ => .error ("unrecognized arguments: " ++ tok)

/-- `parse_args` of the scripts, on an explicit argv list (program name
excluded), with the declared defaults `output="speech"`, `format=wav`. -/
def parse_args (argv : List String) : Except String Args :=
  parseArgsAux argv none "speech" Format.wav

/-- A minimal JSON value model, used for the request payload and for the
`response.json()` view of an error body. -/
inductive JsonVal where
  | null
  | bool (b : Bool)
  | num (n : Int)
  | str (s : String)
  | arr (xs : List JsonVal)
  | obj (fields : List (String × JsonVal))

/-- Lookup of a key in a JSON object field list (Python `dict` access order:
first binding wins in this abstract view). -/
def jlookup : List (String × JsonVal) → String → Option JsonVal
  | [], _ => none
  | (k, v) :: rest, key => if k = key then some v else jlookup rest key

/-- Python `d.get(key, default)` on a JSON value: `none` models the
`AttributeError` raised when the receiver is not a dict. -/
def dictGet (j : JsonVal) (key : String) (default : JsonVal) : Option JsonVal :=
  match j with
  | .obj fields => some ((jlookup fields key).getD default)
  | _ => none

/-- Python truthiness of a JSON value, as used by `message or response.text`. -/
def truthy : JsonVal → Bool
  | .null => false
  | .bool b => b
  | .num n => decide (n ≠ 0)
  | .str s => decide (s ≠ "")
  | .arr xs => !xs.isEmpty
  | .obj fields => !fields.isEmpty

/-- Rendering of a JSON value as interpolated into the error f-string.
Scalar values render as Python str does; rendering of containers is
abstracted to a placeholder (no claim exercises a container message). -/
def pyStr : JsonVal → String
  | .null => "None"
  | .bool true => "True"
  | .bool false => "False"
  | .num n => toString n
  | .str s => s
  | .arr _ => "[...]"
  | .obj _ => "{...}"

/-- The `message` value computed in `request_tts` of 3-tts.py:
`response.json().get("error", {}).get("message", "")`, where any exception
in the chain is swallowed and leaves `message = ""`.  The argument is the
`response.json()` view, `none` when that call raises. -/
def extractMessage (jsonView : Option JsonVal) : JsonVal :=
  match jsonView with
  | none => .str ""
  | some j =>
    match dictGet j "error" (.obj []) with
    | none => .str ""
    | some err =>
      match dictGet err "message" (.str "") with
      | none => .str ""
      | some m => m

/-- An outbound HTTP request as constructed by the scripts.  `timeout` is the
explicit timeout argument passed to the transport, `none` when the script
passes none and the client library default applies. -/
structure HttpRequest where
  method : String
  url : String
  headers : List (String × String)
  payload : List (String × JsonVal)
  timeout : Option Nat

/-- An inbound HTTP response: status code, raw body bytes (`response.content`),
body text (`response.text`), and the `response.json()` view (`none` when
that parse raises). -/
structure HttpResponse where
  status : Nat
  content : List Nat
  text : String
  jsonView : Option JsonVal

/-- Result of handing a request to the transport: either a transport-level
exception (`requests.RequestException`, carrying its message) or a response. -/
inductive HttpResult where
  | transportError (exc : String)
  | response (r : HttpResponse)

/-- `DEFAULT_OPENAI_BASE_URL` of 3-tts.py. -/
def DEFAULT_OPENAI_BASE_URL : String := "https://api.openai.com/v1"

/-- Python `s.rstrip(c)` for a single strip character: remove every trailing
occurrence of `c`. -/
def pyRstrip (s : String) (c : Char) : String :=
  ⟨s.data.rdropWhile (fun x => x == c)⟩

/-- The request URL built in `request_tts` of 3-tts.py, line 78:
the base URL with all trailing slashes stripped, then "/audio/speech". -/
def buildUrl (base_url : String) : String :=
  pyRstrip base_url '/' ++ "/audio/speech"

/-- The request constructed by `request_tts` of 3-tts.py: POST to
`buildUrl base_url` with the bearer-auth and content-type headers, the
five-field JSON payload, and an explicit 60-second timeout. -/
def buildRequest (api_key text : String) (audio_format : Format)
    (base_url : String) : HttpRequest :=
  { method := "POST"
  , url := buildUrl base_url
  , headers :=
      [ ("Authorization", "Bearer " ++ api_key)
      , ("Content-Type", "application/json") ]
  , payload :=
      [ ("model", .str "gpt-4o-mini-tts")
      , ("voice", .str "alloy")
      , ("input", .str text)
      , ("instructions", .str "Speak in a cheerful and positive tone.")
      , ("response_format", .str audio_format.str) ]
  , timeout := some 60 }

/-- The message of the RuntimeError raised on a transport failure in
`request_tts` of 3-tts.py. -/
def networkErrorMessage (url exc : String) : String :=
  "Network error while contacting " ++ url ++ ": " ++ exc

/-- The message of the RuntimeError raised on a non-200 response in
`request_tts` of 3-tts.py: the status code, then the extracted
`error.message` when truthy, else the raw response text. -/
def apiErrorMessage (status : Nat) (jsonView : Option JsonVal) (text : String) : String :=
  "API error " ++ toString status ++ ": " ++
    (if truthy (extractMessage jsonView) then pyStr (extractMessage jsonView) else text)

/-- `request_tts` of 3-tts.py.  The transport is a function parameter; the
result is the binary audio on status 200, or the RuntimeError message
otherwise. -/
def request_tts (http : HttpRequest → HttpResult) (api_key text : String)
    (audio_format : Format) (base_url : String := DEFAULT_OPENAI_BASE_URL) :
    Except String (List Nat) :=
  let req := buildRequest api_key text audio_format base_url
  match http req with
  | .transportError exc => .error (networkErrorMessage req.url exc)
  | .response r =>
    if r.status ≠ 200 then
      .error (apiErrorMessage r.status r.jsonView r.text)
    else
      .ok r.content

/-- The environment: a partial map from variable names to values, as read by
`os.getenv`. -/
def EnvMap : Type := String → Option String

/-- The observable outcome of one run of a script: process exit code, lines
printed to stdout, strings written to stderr, files written (path and bytes),
and the HTTP requests handed to the transport, in order. -/
structure RunResult where
  exitCode : Nat
  stdoutLines : List String
  stderrWrites : List String
  filesWritten : List (String × List Nat)
  requests : List HttpRequest

/-- The stderr diagnostic for a missing credential, shared by all three
scripts. -/
def missingKeyMessage : String :=
  "Error: OPENAI_API_KEY environment variable is not set.\n"

/-- The output filename computed in `main` (3-tts.py lines 134-137, identical
in 1-tts.py and 2-tts.py): the basename, with "." and the format appended
unless the lowercased basename already ends with that suffix. -/
def outputFilename (output : String) (format : Format) : String :=
  if pyEndsWith (pyLower output) ("." ++ format.str) then output
  else output ++ "." ++ format.str

/-- The base URL used by `main` of 3-tts.py, line 121:
`os.getenv("OPENAI_BASE_URL", DEFAULT_OPENAI_BASE_URL)`. -/
def main3BaseUrl (env : EnvMap) : String :=
  (env "OPENAI_BASE_URL").getD DEFAULT_OPENAI_BASE_URL

/-- `main` of 3-tts.py: parse argv, check the credential, call `request_tts`,
write the audio bytes to the output file.  Argparse failures exit with
status 2; every other failure path writes a diagnostic to stderr and exits
with status 1. -/
def main3 (argv : List String) (env : EnvMap)
    (http : HttpRequest → HttpResult) : RunResult :=
  match parse_args argv with
  | .error e => ⟨2, [], [e], [], []⟩
  | .ok args =>
    let api_key := (env "OPENAI_API_KEY").getD ""
    if api_key = "" then
      ⟨1, [], [missingKeyMessage], [], []⟩
    else
      let base_url := main3BaseUrl env
      let req := buildRequest api_key args.text args.format base_url
      match request_tts http api_key args.text args.format base_url with
      | .error err => ⟨1, [], [err ++ "\n"], [], [req]⟩
      | .ok audio_data =>
        let output_file := outputFilename args.output args.format
        ⟨0, ["✔ Audio saved to " ++ output_file], [],
          [(output_file, audio_data)], [req]⟩

/-- `OPENAI_BASE_URL` of 2-tts.py, lines 24-25: a hard-coded module constant,
passed as the explicit `base_url` of the client. -/
def OPENAI_BASE_URL : String := "https://api.openai.com/v1"

/-- Configuration of the SDK client object constructed by 1-tts.py and
2-tts.py: credential, base URL, and the explicit timeout passed to it
(`none` when the script passes no timeout and the SDK default applies). -/
structure ClientConfig where
  api_key : String
  base_url : String
  timeout : Option Nat

/-- The keyword arguments of the `client.audio.speech.create(...)` call
shared by 1-tts.py and 2-tts.py. -/
structure CreateCall where
  model : String
  voice : String
  input : String
  instructions : String
  response_format : String

/-- One SDK invocation: which client configuration it runs under and the
arguments of the create call. -/
structure SdkRun where
  config : ClientConfig
  call : CreateCall

/-- The `client.audio.speech.create` arguments built from parsed args,
identical in 1-tts.py (lines 58-64) and 2-tts.py. -/
def mkCreateCall (a : Args) : CreateCall :=
  ⟨"gpt-4o-mini-tts", "alloy", a.text,
    "Speak in a cheerful and positive tone.", a.format.str⟩

/-- Modelled from the spec: the vendor SDK client constructed by 1-tts.py as
`OpenAI()` (no arguments) resolves its base URL from the environment
variable `OPENAI_BASE_URL`, defaulting to the official endpoint
`https://api.openai.com/v1`; this resolution happens inside the SDK, not in
the script source. -/
def sdkResolvedBaseUrl (env : EnvMap) : String :=
  (env "OPENAI_BASE_URL").getD "https://api.openai.com/v1"

/-- The SDK invocation performed by `main` of 1-tts.py under parsed args `a`
and environment `env`: `none` when the credential check fails before the
client is built (missing or empty OPENAI_API_KEY).  The script passes no
explicit timeout anywhere, so the client timeout is `none`. -/
def main1Invocation (a : Args) (env : EnvMap) : Option SdkRun :=
  let api_key := (env "OPENAI_API_KEY").getD ""
  if api_key = "" then none
  else some ⟨⟨api_key, sdkResolvedBaseUrl env, none⟩, mkCreateCall a⟩

/-- The SDK invocation performed by `main` of 2-tts.py under parsed args `a`
and environment `env`: `none` when the credential check fails.  The client
is built with the hard-coded module constant as its explicit base URL
(2-tts.py lines 60-63), so the environment cannot override it; no explicit
timeout is passed anywhere. -/
def main2Invocation (a : Args) (env : EnvMap) : Option SdkRun :=
  let api_key := (env "OPENAI_API_KEY").getD ""
  if api_key = "" then none
  else some ⟨⟨api_key, OPENAI_BASE_URL, none⟩, mkCreateCall a⟩

/-! ### Helper notions for the theorems -/

/-- Substring containment: the pattern occurs contiguously in the string. -/
def strContains (pat s : String) : Prop :=
  pat.data <:+: s.data

instance (pat s : String) : Decidable (strContains pat s) :=
  List.decidableInfix pat.data s.data

theorem strContains_append_of_left {pat a : String} (h : strContains pat a)
    (b : String) : strContains pat (a ++ b) := by
  obtain ⟨x, y, hxy⟩ := h
  exact ⟨x, y ++ b.data, by rw [String.data_append, ← hxy]; simp⟩

theorem strContains_append_of_right (a : String) {pat b : String}
    (h : strContains pat b) : strContains pat (a ++ b) := by
  obtain ⟨x, y, hxy⟩ := h
  exact ⟨a.data ++ x, y, by rw [String.data_append, ← hxy]; simp⟩

theorem strContains_refl (s : String) : strContains s s :=
  ⟨[], [], by simp⟩

/-- The base-URL transformation as claim C10 words it: repeatedly remove a
trailing slash character.  Stated independently of `pyRstrip` for
comparison with it. -/
def stripTrailingSlashesSpec : List Char → List Char
  | [] => []
  | c :: cs =>
    match stripTrailingSlashesSpec cs with
    | [] => if c = '/' then [] else [c]
    | r => c :: r

theorem stripTrailingSlashesSpec_eq (l : List Char) :
    stripTrailingSlashesSpec l = List.rdropWhile (fun c => c == '/') l := by
  induction l with
  | nil => rfl
  | cons c cs ih =>
    have hd : List.dropWhile (fun c => c == '/') cs.reverse
        = (List.rdropWhile (fun c => c == '/') cs).reverse := by
      rw [List.rdropWhile, List.reverse_reverse]
    rw [List.rdropWhile, List.reverse_cons, List.dropWhile_append, hd]
    rcases hcs : List.rdropWhile (fun c => c == '/') cs with _ | ⟨r, rs⟩
    · rw [stripTrailingSlashesSpec, ih, hcs]
      by_cases hc : c = '/'
      · simp [List.dropWhile_cons, hc]
      · simp [List.dropWhile_cons, hc]
    · rw [stripTrailingSlashesSpec, ih, hcs]
      simp

/-! ### Concrete transports and environments used by the witnesses -/

/-- An environment holding only a non-empty credential. -/
def envK : EnvMap := fun k =>
  if k = "OPENAI_API_KEY" then some "sk-test" else none

/-- The empty environment. -/
def envNone : EnvMap := fun _ => none

/-- An environment with a credential and an overriding base URL. -/
def envOverride : EnvMap := fun k =>
  if k = "OPENAI_API_KEY" then some "sk-test"
  else if k = "OPENAI_BASE_URL" then some "http://localhost:8080/v1"
  else none

/-- A transport that answers every request with status 200 and the bytes of
"RIFF". -/
def httpOk : HttpRequest → HttpResult :=
  fun _ => .response ⟨200, [82, 73, 70, 70], "", none⟩

/-- The status-400 response whose JSON body is
`{"error": {"message": "bad input"}}` with raw text `bad`. -/
def resp400 : HttpResponse :=
  ⟨400, [], "bad", some (.obj [("error", .obj [("message", .str "bad input")])])⟩

/-- A transport that answers every request with `resp400`. -/
def http400 : HttpRequest → HttpResult :=
  fun _ => .response resp400

/-- A transport that fails every request with a connection error. -/
def httpDown : HttpRequest → HttpResult :=
  fun _ => .transportError "connection refused"

/-! ### The claims -/

/-- C2: for every basename `b` and format `f`, the output filename equals `b`
when the lowercase of `b` ends with "." followed by the format string
(case-insensitive match), and equals `b ++ "." ++ f` otherwise; in
particular `--output hello.wav --format wav` yields `hello.wav`, not
`hello.wav.wav`. -/
theorem extension_append_idempotent (b : String) (f : Format) :
    (pyEndsWith (pyLower b) ("." ++ f.str) = true → outputFilename b f = b) ∧
    (pyEndsWith (pyLower b) ("." ++ f.str) = false →
      outputFilename b f = b ++ "." ++ f.str) ∧
    outputFilename "hello.wav" Format.wav = "hello.wav" := by
  refine ⟨fun h => ?_, fun h => ?_, by decide⟩ <;> simp [outputFilename, h]

/-- C2 witness: the case-insensitive suffix test fires on `Hello.WAV` with
format wav, and the extension is appended to a bare `speech` basename. -/
theorem extension_append_idempotent_witness :
    outputFilename "Hello.WAV" Format.wav = "Hello.WAV" ∧
    outputFilename "speech" Format.wav = "speech.wav" :=
  ⟨(extension_append_idempotent "Hello.WAV" Format.wav).1 (by decide),
   (extension_append_idempotent "speech" Format.wav).2.1 (by decide)⟩

/-- C10: the request URL built by `request_tts` is the base URL with every
trailing slash character stripped, followed by "/audio/speech"; hence the
URLs for `u` and `u ++ "/"` coincide, and the stripped base never ends in a
slash, so the join point never holds a double slash. -/
theorem url_join_strips_trailing_slashes (u : String) :
    buildUrl u = String.mk (stripTrailingSlashesSpec u.data) ++ "/audio/speech" ∧
    buildUrl (u ++ "/") = buildUrl u ∧
    (pyRstrip u '/').data.getLast? ≠ some '/' := by
  refine ⟨?_, ?_, ?_⟩
  · rw [buildUrl, pyRstrip, stripTrailingSlashesSpec_eq]
  · rw [buildUrl, buildUrl, pyRstrip, pyRstrip]
    have hu : (u ++ "/").data = u.data ++ ['/'] := by
      rw [String.data_append]
    rw [hu, List.rdropWhile_concat_pos _ _ _ (by rfl)]
  · intro hc
    have hne : List.rdropWhile (fun c => c == '/') u.data ≠ [] := by
      intro h0
      rw [pyRstrip] at hc
      simp only [h0] at hc
      exact Option.noConfusion hc
    rw [pyRstrip] at hc
    rw [show (String.mk (List.rdropWhile (fun c => c == '/') u.data)).data
          = List.rdropWhile (fun c => c == '/') u.data from rfl] at hc
    rw [List.getLast?_eq_getLast _ hne] at hc
    exact List.rdropWhile_last_not (fun c => c == '/') u.data hne
      (by rw [Option.some_inj.mp hc]; rfl)

/-- C10 witness: a trailing slash on the canonical base URL leaves the
request URL unchanged. -/
theorem url_join_strips_trailing_slashes_witness :
    buildUrl "https://api.openai.com/v1/" = buildUrl "https://api.openai.com/v1" ∧
    (pyRstrip "https://api.openai.com/v1/" '/').data.getLast? ≠ some '/' := by
  have h := url_join_strips_trailing_slashes "https://api.openai.com/v1"
  have h2 := url_join_strips_trailing_slashes "https://api.openai.com/v1/"
  exact ⟨(by decide : buildUrl "https://api.openai.com/v1/"
    = buildUrl ("https://api.openai.com/v1" ++ "/")).trans h.2.1, h2.2.2⟩

/-- C1: on a successful run (status 200 with body bytes) the program writes
exactly the response bytes, unmodified, to the output file and exits 0;
with default arguments the file is speech.wav, and with
`-o hello --format mp3` it is hello.mp3. -/
theorem success_writes_exact_bytes (argv : List String) (env : EnvMap)
    (http : HttpRequest → HttpResult) (r : HttpResponse) (a : Args)
    (hp : parse_args argv = .ok a)
    (hk : (env "OPENAI_API_KEY").getD "" ≠ "")
    (hr : ∀ q, http q = .response r) (h200 : r.status = 200) :
    (main3 argv env http).filesWritten
      = [(outputFilename a.output a.format, r.content)] ∧
    (main3 argv env http).exitCode = 0 ∧
    parse_args ["hi"] = .ok ⟨"hi", "speech", .wav⟩ ∧
    outputFilename "speech" Format.wav = "speech.wav" ∧
    parse_args ["hi", "-o", "hello", "--format", "mp3"]
      = .ok ⟨"hi", "hello", .mp3⟩ ∧
    outputFilename "hello" Format.mp3 = "hello.mp3" := by
  refine ⟨?_, ?_, rfl, by decide, rfl, by decide⟩ <;>
    simp [main3, hp, hk, request_tts, hr, h200]

/-- C1 witness: with a transport returning 200 and the bytes of "RIFF", the
default invocation writes exactly those bytes to speech.wav and exits 0. -/
theorem success_writes_exact_bytes_witness :
    (main3 ["hi"] envK httpOk).filesWritten = [("speech.wav", [82, 73, 70, 70])] ∧
    (main3 ["hi"] envK httpOk).exitCode = 0 := by
  have h := success_writes_exact_bytes ["hi"] envK httpOk
    ⟨200, [82, 73, 70, 70], "", none⟩ ⟨"hi", "speech", .wav⟩
    rfl (by decide) (fun q => rfl) rfl
  exact ⟨by rw [h.1, h.2.2.2.1], h.2.1⟩

/-- C3: when OPENAI_API_KEY is unset or empty, the run exits with a non-zero
code, writes a diagnostic to stderr, and issues no network request; the
variant-1 and variant-2 scripts likewise never reach their SDK call. -/
theorem missing_key_no_request (argv : List String) (env : EnvMap)
    (http : HttpRequest → HttpResult) (a : Args)
    (hp : parse_args argv = .ok a)
    (hk : env "OPENAI_API_KEY" = none ∨ env "OPENAI_API_KEY" = some "") :
    (main3 argv env http).exitCode = 1 ∧
    (main3 argv env http).stderrWrites = [missingKeyMessage] ∧
    (main3 argv env http).requests = [] ∧
    main1Invocation a env = none ∧
    main2Invocation a env = none := by
  have hempty : (env "OPENAI_API_KEY").getD "" = "" := by
    rcases hk with h | h <;> rw [h] <;> rfl
  refine ⟨?_, ?_, ?_, ?_, ?_⟩ <;>
    simp [main3, main1Invocation, main2Invocation, hp, hempty]

/-- C3 witness: in the empty environment the default invocation exits 1 with
the missing-credential diagnostic and an empty request log. -/
theorem missing_key_no_request_witness :
    (main3 ["hi"] envNone httpOk).exitCode = 1 ∧
    (main3 ["hi"] envNone httpOk).stderrWrites = [missingKeyMessage] ∧
    (main3 ["hi"] envNone httpOk).requests = [] ∧
    main1Invocation ⟨"hi", "speech", .wav⟩ envNone = none ∧
    main2Invocation ⟨"hi", "speech", .wav⟩ envNone = none :=
  missing_key_no_request ["hi"] envNone httpOk ⟨"hi", "speech", .wav⟩
    rfl (Or.inl rfl)

/-- C4: on any non-200 response the run exits non-zero with a diagnostic that
carries the status code; the diagnostic carries the nested error.message
string when the JSON body holds a non-empty one, and the raw response text
whenever the extracted message is falsy. -/
theorem non200_reports_status_and_message (argv : List String) (env : EnvMap)
    (http : HttpRequest → HttpResult) (r : HttpResponse) (a : Args)
    (hp : parse_args argv = .ok a)
    (hk : (env "OPENAI_API_KEY").getD "" ≠ "")
    (hr : ∀ q, http q = .response r) (hs : r.status ≠ 200) :
    (main3 argv env http).exitCode = 1 ∧
    (main3 argv env http).filesWritten = [] ∧
    (main3 argv env http).stderrWrites
      = [apiErrorMessage r.status r.jsonView r.text ++ "\n"] ∧
    strContains (toString r.status) (apiErrorMessage r.status r.jsonView r.text) ∧
    (∀ m, extractMessage r.jsonView = .str m → m ≠ "" →
      strContains m (apiErrorMessage r.status r.jsonView r.text)) ∧
    (truthy (extractMessage r.jsonView) = false →
      strContains r.text (apiErrorMessage r.status r.jsonView r.text)) := by
  refine ⟨?_, ?_, ?_, ?_, ?_, ?_⟩
  · simp [main3, hp, hk, request_tts, hr, hs]
  · simp [main3, hp, hk, request_tts, hr, hs]
  · simp [main3, hp, hk, request_tts, hr, hs]
  · rw [apiErrorMessage]
    exact strContains_append_of_left
      (strContains_append_of_left
        (strContains_append_of_right _ (strContains_refl _)) _) _
  · intro m hm hm2
    have hmsg : apiErrorMessage r.status r.jsonView r.text
        = "API error " ++ toString r.status ++ ": " ++ m := by
      rw [apiErrorMessage, hm]
      simp [truthy, pyStr, hm2]
    rw [hmsg]
    exact strContains_append_of_right _ (strContains_refl m)
  · intro hfalsy
    have hmsg : apiErrorMessage r.status r.jsonView r.text
        = "API error " ++ toString r.status ++ ": " ++ r.text := by
      rw [apiErrorMessage, hfalsy]
      simp
    rw [hmsg]
    exact strContains_append_of_right _ (strContains_refl r.text)

/-- C4 witness: a 400 response with body {"error": {"message": "bad input"}}
makes the run exit 1 with a diagnostic containing both 400 and bad input. -/
theorem non200_reports_status_and_message_witness :
    (main3 ["hi"] envK http400).exitCode = 1 ∧
    strContains "400" (apiErrorMessage 400 resp400.jsonView "bad") ∧
    strContains "bad input" (apiErrorMessage 400 resp400.jsonView "bad") := by
  have h := non200_reports_status_and_message ["hi"] envK http400 resp400
    ⟨"hi", "speech", .wav⟩ rfl (by decide) (fun q => rfl) (by decide)
  exact ⟨h.1, h.2.2.2.1, h.2.2.2.2.1 "bad input" rfl (by decide)⟩

/-- C5: on a transport-level failure the run exits non-zero with a
network-error diagnostic that wraps the underlying cause, and no output
file is written. -/
theorem transport_error_writes_no_file (argv : List String) (env : EnvMap)
    (http : HttpRequest → HttpResult) (exc : String) (a : Args)
    (hp : parse_args argv = .ok a)
    (hk : (env "OPENAI_API_KEY").getD "" ≠ "")
    (hr : ∀ q, http q = .transportError exc) :
    (main3 argv env http).exitCode = 1 ∧
    (main3 argv env http).filesWritten = [] ∧
    (main3 argv env http).stderrWrites
      = [networkErrorMessage (buildUrl (main3BaseUrl env)) exc ++ "\n"] ∧
    strContains "Network error"
      (networkErrorMessage (buildUrl (main3BaseUrl env)) exc) ∧
    strContains exc (networkErrorMessage (buildUrl (main3BaseUrl env)) exc) := by
  refine ⟨?_, ?_, ?_, ?_, ?_⟩
  · simp [main3, hp, hk, request_tts, hr]
  · simp [main3, hp, hk, request_tts, hr]
  · simp [main3, hp, hk, request_tts, hr, buildRequest]
  · rw [networkErrorMessage]
    exact strContains_append_of_left
      (strContains_append_of_left
        (strContains_append_of_left (by decide) _) _) _
  · rw [networkErrorMessage]
    exact strContains_append_of_right _ (strContains_refl exc)

/-- C5 witness: a simulated connection failure makes the default invocation
exit 1 with no file written and a diagnostic naming the cause. -/
theorem transport_error_writes_no_file_witness :
    (main3 ["hi"] envK httpDown).exitCode = 1 ∧
    (main3 ["hi"] envK httpDown).filesWritten = [] ∧
    strContains "connection refused"
      (networkErrorMessage (buildUrl (main3BaseUrl envK)) "connection refused") := by
  have h := transport_error_writes_no_file ["hi"] envK httpDown
    "connection refused" ⟨"hi", "speech", .wav⟩ rfl (by decide)
    (fun q => rfl)
  exact ⟨h.1, h.2.1, h.2.2.2.2⟩

/-- C6: every request issued by the variant-3 run is a POST to
{base_url}/audio/speech with the bearer-auth and JSON content-type headers
and a body holding exactly the five fields model, voice, input,
instructions, response_format with their fixed and per-invocation values. -/
theorem wire_contract (argv : List String) (env : EnvMap)
    (http : HttpRequest → HttpResult) (a : Args) (k base : String)
    (hp : parse_args argv = .ok a)
    (hk : env "OPENAI_API_KEY" = some k) (hk2 : k ≠ "")
    (hb : env "OPENAI_BASE_URL" = some base)
    (hbs : pyRstrip base '/' = base) :
    (main3 argv env http).requests =
      [{ method := "POST"
       , url := base ++ "/audio/speech"
       , headers :=
           [ ("Authorization", "Bearer " ++ k)
           , ("Content-Type", "application/json") ]
       , payload :=
           [ ("model", .str "gpt-4o-mini-tts")
           , ("voice", .str "alloy")
           , ("input", .str a.text)
           , ("instructions", .str "Speak in a cheerful and positive tone.")
           , ("response_format", .str a.format.str) ]
       , timeout := some 60 }] := by
  have hkey : (env "OPENAI_API_KEY").getD "" = k := by rw [hk]; rfl
  have hbase : main3BaseUrl env = base := by rw [main3BaseUrl, hb]; rfl
  rcases hres : request_tts http k a.text a.format base
      with err | audio <;>
    simp [main3, hp, hkey, hk2, hres, buildRequest, hbase, buildUrl, hbs]

/-- C6 witness: under the canonical base URL the issued request is exactly
the documented POST with all five payload fields. -/
theorem wire_contract_witness :
    (main3 ["hi"] envOverride httpOk).requests =
      [{ method := "POST"
       , url := "http://localhost:8080/v1/audio/speech"
       , headers :=
           [ ("Authorization", "Bearer sk-test")
           , ("Content-Type", "application/json") ]
       , payload :=
           [ ("model", .str "gpt-4o-mini-tts")
           , ("voice", .str "alloy")
           , ("input", .str "hi")
           , ("instructions", .str "Speak in a cheerful and positive tone.")
           , ("response_format", .str "wav") ]
       , timeout := some 60 }] := by
  have h := wire_contract ["hi"] envOverride httpOk ⟨"hi", "speech", .wav⟩
    "sk-test" "http://localhost:8080/v1" rfl rfl (by decide) rfl (by decide)
  exact h.trans (by rfl)

/-- C7 counterexample: with OPENAI_BASE_URL set to a local override in the
environment, the variant-2 script still targets the hard-coded constant
https://api.openai.com/v1, so the claim that every variant honours the
environment override is false. -/
theorem base_url_env_counterexample :
    envOverride "OPENAI_BASE_URL" = some "http://localhost:8080/v1" ∧
    (main2Invocation ⟨"hi", "speech", .wav⟩ envOverride).map
      (fun i => i.config.base_url) = some "https://api.openai.com/v1" ∧
    ("https://api.openai.com/v1" : String) ≠ "http://localhost:8080/v1" := by
  refine ⟨rfl, rfl, by decide⟩

/-- C7 amended: variants 1 and 3 resolve the base URL from OPENAI_BASE_URL
when it is set and fall back to https://api.openai.com/v1 when it is unset;
variant 2 always uses its hard-coded module constant, regardless of the
environment. -/
theorem base_url_env_amended (env : EnvMap) (a : Args) (base key : String)
    (hk : env "OPENAI_API_KEY" = some key) (hk2 : key ≠ "")
    (hb : env "OPENAI_BASE_URL" = some base) :
    main3BaseUrl env = base ∧
    (main1Invocation a env).map (fun i => i.config.base_url) = some base ∧
    (main2Invocation a env).map (fun i => i.config.base_url)
      = some OPENAI_BASE_URL ∧
    (∀ env2 : EnvMap, env2 "OPENAI_BASE_URL" = none →
      main3BaseUrl env2 = DEFAULT_OPENAI_BASE_URL) ∧
    (∀ env2 : EnvMap, env2 "OPENAI_BASE_URL" = none →
      sdkResolvedBaseUrl env2 = "https://api.openai.com/v1") := by
  have hkey : (env "OPENAI_API_KEY").getD "" = key := by rw [hk]; rfl
  refine ⟨?_, ?_, ?_, ?_, ?_⟩
  · rw [main3BaseUrl, hb]; rfl
  · simp [main1Invocation, hkey, hk2, sdkResolvedBaseUrl, hb]
  · simp [main2Invocation, hkey, hk2]
  · intro env2 h2; rw [main3BaseUrl, h2]; rfl
  · intro env2 h2; rw [sdkResolvedBaseUrl, h2]; rfl

/-- C7 amended witness: the override environment drives variants 1 and 3 to
the local URL while variant 2 stays on the constant. -/
theorem base_url_env_amended_witness :
    main3BaseUrl envOverride = "http://localhost:8080/v1" ∧
    (main1Invocation ⟨"hi", "speech", .wav⟩ envOverride).map
      (fun i => i.config.base_url) = some "http://localhost:8080/v1" ∧
    (main2Invocation ⟨"hi", "speech", .wav⟩ envOverride).map
      (fun i => i.config.base_url) = some OPENAI_BASE_URL := by
  have h := base_url_env_amended envOverride ⟨"hi", "speech", .wav⟩
    "http://localhost:8080/v1" "sk-test" rfl (by decide) rfl
  exact ⟨h.1, h.2.1, h.2.2.1⟩

/-- C8 counterexample: the variant-1 and variant-2 scripts pass no timeout
anywhere, so their SDK client is created with no explicit timeout; the
claim that every variant issues its request with a fixed 60-second timeout
is false. -/
theorem timeout_counterexample :
    (main1Invocation ⟨"hi", "speech", .wav⟩ envK).map
      (fun i => i.config.timeout) = some none ∧
    (main2Invocation ⟨"hi", "speech", .wav⟩ envK).map
      (fun i => i.config.timeout) = some none ∧
    (none : Option Nat) ≠ some 60 := by
  refine ⟨rfl, rfl, by decide⟩

/-- C8 amended: every request the variant-3 run hands to the transport
carries the explicit 60-second timeout, while variants 1 and 2 never pass
an explicit timeout and rely on the SDK default. -/
theorem timeout_amended (argv : List String) (env : EnvMap)
    (http : HttpRequest → HttpResult) :
    (∀ q ∈ (main3 argv env http).requests, q.timeout = some 60) ∧
    (∀ a2 (env2 : EnvMap), (main1Invocation a2 env2).map
      (fun i => i.config.timeout) ≠ some (some 60)) ∧
    (∀ a2 (env2 : EnvMap), (main2Invocation a2 env2).map
      (fun i => i.config.timeout) ≠ some (some 60)) := by
  refine ⟨?_, ?_, ?_⟩
  · intro q hq
    rcases hparse : parse_args argv with e | a
    · simp [main3, hparse] at hq
    · by_cases hkey : (env "OPENAI_API_KEY").getD "" = ""
      · simp [main3, hparse, hkey] at hq
      · rcases hres : request_tts http ((env "OPENAI_API_KEY").getD "")
            a.text a.format (main3BaseUrl env) with err | audio <;>
          simp [main3, hparse, hkey, hres, buildRequest] at hq <;>
          rw [hq]
  · intro a2 env2
    by_cases hkey : (env2 "OPENAI_API_KEY").getD "" = "" <;>
      simp [main1Invocation, hkey]
  · intro a2 env2
    by_cases hkey : (env2 "OPENAI_API_KEY").getD "" = "" <;>
      simp [main2Invocation, hkey]

/-- C8 amended witness: the concrete request issued by a default variant-3
run carries the 60-second timeout, and the concrete variant-2 client
carries none. -/
theorem timeout_amended_witness :
    (buildRequest "sk-test" "hi" Format.wav DEFAULT_OPENAI_BASE_URL).timeout
      = some 60 ∧
    (main2Invocation ⟨"hi", "speech", .wav⟩ envK).map
      (fun i => i.config.timeout) ≠ some (some 60) := by
  have h := timeout_amended ["hi"] envK httpOk
  refine ⟨?_, h.2.2 ⟨"hi", "speech", .wav⟩ envK⟩
  have hreq : (main3 ["hi"] envK httpOk).requests
      = [buildRequest "sk-test" "hi" Format.wav DEFAULT_OPENAI_BASE_URL] := rfl
  exact h.1 _ (by rw [hreq]; exact List.mem_singleton.mpr rfl)

/-- C9 counterexample: the parser accepts an empty positional text argument,
so the claim that the text argument must be a non-empty string is false. -/
theorem cli_empty_text_counterexample :
    parse_args [""] = .ok ⟨"", "speech", Format.wav⟩ ∧
    ("" : String).length = 0 := by
  refine ⟨rfl, rfl⟩

/-- C9 amended: the CLI requires the positional text argument but accepts
any string for it, the empty string included; --format accepts exactly
wav, mp3, opus and flac (default wav), rejecting any other value; and
--output defaults to speech. -/
theorem cli_parsing_amended (t v : String)
    (ht : ¬ pyStartsWith t "-") (hv : Format.ofString v = none) :
    parse_args [t] = .ok ⟨t, "speech", Format.wav⟩ ∧
    (parse_args []).isOk = false ∧
    (parse_args [t, "--format", v]).isOk = false ∧
    parse_args [t, "--format", "mp3"] = .ok ⟨t, "speech", Format.mp3⟩ ∧
    parse_args [t, "-o", "out"] = .ok ⟨t, "out", Format.wav⟩ ∧
    (∀ f : Format, Format.ofString f.str = some f) := by
  have h1 : t ≠ "-o" := by
    intro h; rw [h] at ht; exact ht (by decide)
  have h2 : t ≠ "--output" := by
    intro h; rw [h] at ht; exact ht (by decide)
  have h3 : t ≠ "--format" := by
    intro h; rw [h] at ht; exact ht (by decide)
  refine ⟨?_, rfl, ?_, ?_, ?_, fun f => by cases f <;> rfl⟩
  · simp [parse_args, parseArgsAux, h1, h2, h3, ht]
  · simp [parse_args, parseArgsAux, h1, h2, h3, ht, hv, Except.isOk,
      Except.toBool]
  · simp [parse_args, parseArgsAux, h1, h2, h3, ht, Format.ofString]
  · simp [parse_args, parseArgsAux, h1, h2, h3, ht]

/-- C9 amended witness: a plain word parses with the defaults, a bad
--format value is rejected. -/
theorem cli_parsing_amended_witness :
    parse_args ["hi"] = .ok ⟨"hi", "speech", Format.wav⟩ ∧
    (parse_args ["hi", "--format", "ogg"]).isOk = false := by
  have h := cli_parsing_amended "hi" "ogg" (by decide) rfl
  exact ⟨h.1, h.2.2.1⟩

end TTS
